import Mathlib

/- Formal model of the compliance-automation engine: the manifest scanner,
   auto-remediator and report assembler of intelligent-scanner.py, and the
   decision engine (priority scorer, blocker predictor, remediation planner)
   of decision-engine.py, together with theorems about their behaviour. -/

set_option linter.unusedVariables false

/- ## String utilities modelling the Python primitives used by the code -/

/-- Python substring test `old in s`, on character lists. -/
def containsSub (old : List Char) : List Char → Bool
  | [] => old.isEmpty
  | c :: rest => old.isPrefixOf (c :: rest) || containsSub old rest

/-- True when an occurrence of `old` in `a ++ rest` starts inside the prefix `a`. -/
def matchInPrefix (old : List Char) : List Char → List Char → Bool
  | [], _ => false
  | c :: a, rest => old.isPrefixOf (c :: (a ++ rest)) || matchInPrefix old a rest

/-- Fuel-indexed core of Python `str.replace` for a non-empty pattern:
    leftmost non-overlapping occurrences of `old` are replaced by `new`.
    The fuel only serves structural recursion; `s.length` fuel is enough. -/
def replaceAllAux (old new : List Char) : Nat → List Char → List Char
  | _, [] => []
  | 0, s => s
  | fuel + 1, c :: rest =>
    if old.isPrefixOf (c :: rest) then
      new ++ replaceAllAux old new fuel ((c :: rest).drop old.length)
    else
      c :: replaceAllAux old new fuel rest

/-- Python `s.replace(old, new)` for the empty pattern: `new` is inserted
    before every character and once at the end. -/
def interleave (new : List Char) : List Char → List Char
  | [] => new
  | c :: rest => new ++ c :: interleave new rest

/-- Python `s.replace(old, new)`. -/
def pyReplace (s old new : String) : String :=
  if old.data.isEmpty then ⟨interleave new.data s.data⟩
  else ⟨replaceAllAux old.data new.data s.data.length s.data⟩

/-- Python `s.endswith(suffix)`. -/
def strEndsWith (s suffix : String) : Bool := suffix.data.isSuffixOf s.data

/-- Python `sub in s` on strings. -/
def containsStr (s sub : String) : Bool := containsSub sub.data s.data

/-- Python `s.lower()` (ASCII fragment, which covers the inputs involved). -/
def pyToLower (s : String) : String := ⟨s.data.map Char.toLower⟩

/-- Scans a reversed path: drops a final `.ext` of the last path component
    when there is one (`none` when the component has no real extension). -/
def revDropExt : List Char → Option (List Char)
  | [] => none
  | '.' :: rest => if rest.isEmpty || rest.head? == some '/' then none else some rest
  | '/' :: _ => none
  | _ :: rest => revDropExt rest

/-- Python `pathlib.Path(p).with_suffix(suffix)`: the last extension of the
    final component is replaced by `suffix` (appended when there is none). -/
def withSuffix (p suffix : String) : String :=
  match revDropExt p.data.reverse with
  | some rest => ⟨rest.reverse ++ suffix.data⟩
  | none => p ++ suffix

/-- Fuel-indexed matcher for the regular-expression fragment appearing in the
    scanner's image rules: literal characters, `.` (any character) and `*`
    (star on the preceding atom), with `re.match` prefix semantics. -/
def reMatchAux : Nat → List Char → List Char → Bool
  | _, [], _ => true
  | 0, _ :: _, _ => false
  | fuel + 1, p :: ps, s =>
    match ps with
    | '*' :: ps2 =>
      reMatchAux fuel ps2 s ||
        (match s with
         | [] => false
         | c :: cs => (p == '.' || p == c) && reMatchAux fuel (p :: '*' :: ps2) cs)
    | _ =>
      match s with
      | [] => false
      | c :: cs => (p == '.' || p == c) && reMatchAux fuel ps cs

/-- Python `re.match(pattern, s)` truthiness, for the supported fragment. -/
def reMatch (pattern s : String) : Bool :=
  reMatchAux (pattern.data.length + s.data.length + 1) pattern.data s.data

/-- Round half to even to an integer, as Python `round` does. -/
def roundHalfEven (q : ℚ) : ℤ :=
  if q - ⌊q⌋ < 1/2 then ⌊q⌋
  else if 1/2 < q - ⌊q⌋ then ⌊q⌋ + 1
  else if ⌊q⌋ % 2 = 0 then ⌊q⌋ else ⌊q⌋ + 1

/-- Python `round(x, 1)`. -/
def round1 (q : ℚ) : ℚ := (roundHalfEven (10 * q) : ℚ) / 10

/- ## Data model of the scanner (intelligent-scanner.py) -/

/-- A scalar value as it appears in a parsed manifest or in a rule table;
    `pynone` models Python `None` (a `dict.get` miss). -/
inductive PyVal where
  | str (s : String)
  | bool (b : Bool)
  | pynone
deriving DecidableEq, Repr

/-- A violation dictionary produced by the scanner.  Optional fields model
    keys that are present only for some violation types. -/
structure Violation where
  vtype : String
  file : String := ""
  manifest_index : Nat := 0
  container_index : Option Nat := none
  missing_label : Option String := none
  setting : Option String := none
  current_value : Option PyVal := none
  recommended_value : Option PyVal := none
  risk_level : Option String := none
  remediation_type : Option String := none
  justification : Option String := none
  auto_fixable : Bool := false
deriving DecidableEq, Repr

/-- One entry of the image-replacement rule table.  `justification` is
    optional because the fallback rules omit that key. -/
structure ImageRule where
  target : String
  risk : String
  remediation : String
  justification : Option String := none
deriving DecidableEq, Repr

/-- The three rule families loaded by `load_intelligence_rules`. -/
structure Rules where
  image_replacement : List (String × ImageRule) := []
  namespace_required_labels : List String := []
  security_auto_fixes : List (String × PyVal) := []
deriving DecidableEq, Repr

/-- `_get_fallback_rules`: the built-in rule set used when loading fails. -/
def getFallbackRules : Rules :=
  { image_replacement :=
      [("busybox:latest",
        { target := "ghcr.io/secure-baseline/busybox:1.36-secure",
          risk := "critical",
          remediation := "auto" })],
    namespace_required_labels := ["team", "environment", "lifecycle"],
    security_auto_fixes :=
      [("runAsNonRoot", PyVal.bool true),
       ("allowPrivilegeEscalation", PyVal.bool false)] }

/-- A container entry of a pod spec; `image := none` models a missing
    `image` key (whose access raises `KeyError`). -/
structure Container where
  image : Option String := none
  securityContext : List (String × PyVal) := []
deriving DecidableEq, Repr

/-- `manifest.spec.template.spec`; a missing `containers` key defaults to `[]`. -/
structure PodSpec where
  containers : List Container := []
deriving DecidableEq, Repr

/-- `manifest.spec.template`; `spec := none` models a missing `spec` key
    under the template (whose access raises `KeyError`). -/
structure PodTemplate where
  spec : Option PodSpec := none
deriving DecidableEq, Repr

/-- A parsed manifest document, restricted to the fields the scanner reads.
    `template := none` models a document without `spec.template`; `labels`
    models the key set of `metadata.labels` (missing maps default to `[]`). -/
structure Manifest where
  kind : Option String := none
  labels : List String := []
  template : Option PodTemplate := none
deriving DecidableEq, Repr

/- ## The scanner (`_check_*`, `_analyze_manifest`, `scan_manifests`) -/

/-- `_check_image_compliance`: the first matching replacement rule wins; the
    rule's `justification` key is read while building the violation, so a
    rule without it raises (`Except.error`). -/
def checkImageCompliance (rules : Rules) (image file : String) (index : Nat) :
    Except String (List Violation) :=
  match rules.image_replacement.find?
      (fun pr => reMatch (pyReplace pr.1 ".*" ".*") image) with
  | none => .ok []
  | some (_, rule) =>
    match rule.justification with
    | none => .error "KeyError: justification"
    | some j =>
      .ok [{ vtype := "image_compliance",
             file := file,
             manifest_index := index,
             current_value := some (.str image),
             recommended_value := some (.str rule.target),
             risk_level := some rule.risk,
             remediation_type := some rule.remediation,
             justification := some j,
             auto_fixable := rule.remediation = "auto" }]

/-- The image check over the containers of a pod spec, in declared order;
    a container without an `image` key raises. -/
def checkContainersImages (rules : Rules) (file : String) (index : Nat) :
    List Container → Except String (List Violation)
  | [] => .ok []
  | c :: rest => do
    match c.image with
    | none => Except.error "KeyError: image"
    | some img => do
      let vs ← checkImageCompliance rules img file index
      let more ← checkContainersImages rules file index rest
      pure (vs ++ more)

/-- `_check_namespace_labels`: one violation per required label that is
    absent from the document's labels, in catalog order. -/
def checkNamespaceLabels (rules : Rules) (labels : List String) (file : String)
    (index : Nat) : List Violation :=
  rules.namespace_required_labels.filterMap (fun label =>
    if labels.contains label then none
    else some { vtype := "missing_namespace_label",
                file := file,
                manifest_index := index,
                missing_label := some label,
                risk_level := some "medium",
                remediation_type := some "auto",
                auto_fixable := true })

/-- `_check_security_context`, one container: one violation per configured
    setting whose current value (missing = `pynone`) differs from the
    expected one. -/
def checkContainerSecurity (rules : Rules) (file : String) (index ci : Nat)
    (c : Container) : List Violation :=
  rules.security_auto_fixes.filterMap (fun kv =>
    let current := (c.securityContext.lookup kv.1).getD PyVal.pynone
    if current = kv.2 then none
    else some { vtype := "security_context",
                file := file,
                manifest_index := index,
                container_index := some ci,
                setting := some kv.1,
                current_value := some current,
                recommended_value := some kv.2,
                risk_level := some "high",
                remediation_type := some "auto",
                auto_fixable := true })

/-- `_check_security_context` over all containers of a pod spec. -/
def checkSecurityContext (rules : Rules) (file : String) (index : Nat)
    (containers : List Container) : List Violation :=
  (containers.enum.map (fun ic => checkContainerSecurity rules file index ic.1 ic.2)).flatten

/-- `_analyze_manifest`: image checks, then namespace-label checks, then
    security-context checks; a missing `template.spec` or container `image`
    key raises out of the document (aborting the rest of its file). -/
def analyzeManifest (rules : Rules) (m : Manifest) (file : String) (index : Nat) :
    Except String (List Violation) := do
  let imageVs ←
    match m.template with
    | none => pure []
    | some t =>
      match t.spec with
      | none => Except.error "KeyError: spec"
      | some ps => checkContainersImages rules file index ps.containers
  let nsVs :=
    if m.kind = some "Namespace" then checkNamespaceLabels rules m.labels file index
    else []
  let secVs ←
    match m.template with
    | none => pure []
    | some t =>
      match t.spec with
      | none => Except.error "KeyError: spec"
      | some ps => pure (checkSecurityContext rules file index ps.containers)
  pure (imageVs ++ nsVs ++ secVs)

deriving instance DecidableEq for Except

/-- A manifest file handed to the scanner: its path and the per-document
    outcome of the external YAML parser (`Except.error` = malformed). -/
structure ScanFile where
  path : String
  docs : List (Except Unit (Option Manifest))
deriving DecidableEq, Repr

/-- `list(yaml.safe_load_all(f))`: materialising the lazy document stream
    fails as a whole as soon as any document is malformed. -/
def listAllDocs : List (Except Unit (Option Manifest)) →
    Except Unit (List (Option Manifest))
  | [] => .ok []
  | .error e :: _ => .error e
  | .ok d :: rest => (listAllDocs rest).map (d :: ·)

/-- The per-file document loop of `scan_manifests`: falsy documents are
    skipped, and an analysis error aborts the rest of the file while the
    violations already extended stay collected. -/
def scanDocs (rules : Rules) (path : String) : Nat → List (Option Manifest) → List Violation
  | _, [] => []
  | i, none :: rest => scanDocs rules path (i + 1) rest
  | i, some m :: rest =>
    match analyzeManifest rules m path i with
    | .error _ => []
    | .ok vs => vs ++ scanDocs rules path (i + 1) rest

/-- One file of `scan_manifests`: a parse failure is logged and the file
    contributes nothing. -/
def scanFileViolations (rules : Rules) (f : ScanFile) : List Violation :=
  match listAllDocs f.docs with
  | .error _ => []
  | .ok docs => scanDocs rules f.path 0 docs

/-- `scan_manifests`: every file in path order, extending one violation list. -/
def scanManifests (rules : Rules) (files : List ScanFile) : List Violation :=
  files.foldl (fun acc f => acc ++ scanFileViolations rules f) []

/- ## The auto-remediator (`auto_remediate`, `_apply_fix`, `_fix_*`) -/

/-- The file system seen by the remediator: newest write first. -/
abbrev FS := List (String × String)

/-- `open(p).read()` truthiness: the current content of `p`, if it exists. -/
def fsRead (fs : FS) (p : String) : Option String :=
  (fs.find? (fun e => e.1 == p)).map (·.2)

/-- `open(p, "w").write(c)`. -/
def fsWrite (fs : FS) (p c : String) : FS := (p, c) :: fs

/-- One file write performed by a fix, in program order. -/
structure WriteEvent where
  path : String
  content : String
deriving DecidableEq, Repr

/-- Applies a prefix of a fix's writes to the file system; stopping early
    models an I/O failure part-way through the fix. -/
def applyWrites (fs : FS) : List WriteEvent → FS
  | [] => fs
  | e :: rest => applyWrites (fsWrite fs e.path e.content) rest

/-- A fix dictionary returned by a `_fix_*` method or by `_apply_fix`. -/
structure FixRecord where
  success : Bool
  file : Option String := none
  fix_type : Option String := none
  old_value : Option String := none
  new_value : Option String := none
  error : Option String := none
deriving DecidableEq, Repr

/-- `_fix_image_compliance`: read the file, compute the content with the old
    image reference substituted, then write the backup (pre-fix content)
    followed by the target (post-fix content) — in that order.  A missing
    file or non-string values raise (`Except.error`). -/
def fixImageCompliance (fs : FS) (v : Violation) :
    Except String (List WriteEvent × FixRecord) :=
  match fsRead fs v.file with
  | none => .error "FileNotFoundError"
  | some content =>
    match v.current_value, v.recommended_value with
    | some (.str old_image), some (.str new_image) =>
      let fixed_content := pyReplace content old_image new_image
      let backup_path := withSuffix v.file ".yaml.backup"
      .ok ([⟨backup_path, content⟩, ⟨v.file, fixed_content⟩],
           { success := true,
             file := some v.file,
             fix_type := some "image_replacement",
             old_value := some old_image,
             new_value := some new_image })
    | _, _ => .error "TypeError"

/-- `_fix_namespace_label`: a stub that reports success without touching
    any document. -/
def fixNamespaceLabel (v : Violation) : FixRecord :=
  { success := true, fix_type := some "namespace_label_addition" }

/-- `_fix_security_context`: a stub that reports success without touching
    any document. -/
def fixSecurityContext (v : Violation) : FixRecord :=
  { success := true, fix_type := some "security_context_update" }

/-- `_apply_fix`: dispatch on the violation's type; an unrecognised type
    yields a failed fix with a descriptive error. -/
def applyFix (fs : FS) (v : Violation) : Except String (FS × FixRecord) :=
  if v.vtype = "image_compliance" then
    match fixImageCompliance fs v with
    | .error e => .error e
    | .ok (events, fix) => .ok (applyWrites fs events, fix)
  else if v.vtype = "missing_namespace_label" then
    .ok (fs, fixNamespaceLabel v)
  else if v.vtype = "security_context" then
    .ok (fs, fixSecurityContext v)
  else
    .ok (fs, { success := false, error := some ("不支持的修復類型: " ++ v.vtype) })

/-- `auto_remediate`: attempt a fix for every auto-fixable violation; an
    exception is caught and logged, and only successful fix records are
    appended to the returned list. -/
def autoRemediate (fs : FS) : List Violation → FS × List FixRecord
  | [] => (fs, [])
  | v :: rest =>
    if v.auto_fixable then
      match applyFix fs v with
      | .ok (fs1, fix) =>
        let res := autoRemediate fs1 rest
        if fix.success then (res.1, fix :: res.2) else res
      | .error _ => autoRemediate fs rest
    else autoRemediate fs rest

/- ## The report assembler and the compliance score -/

/-- `_calculate_compliance_score`. -/
def calculateComplianceScore (violations : List Violation) (fixes : List FixRecord) : ℚ :=
  if violations.isEmpty then 100
  else
    let auto_fixable := (violations.filter (fun v => v.auto_fixable)).length
    let fixed := fixes.length
    if auto_fixable > 0 then
      let fix_rate : ℚ := (fixed : ℚ) / (auto_fixable : ℚ)
      let remaining_non_auto : ℚ := (violations.length : ℚ) - (auto_fixable : ℚ)
      let base_score : ℚ := 100 * (1 - remaining_non_auto / ((violations.length : ℚ) + 1))
      round1 (base_score * fix_rate)
    else
      round1 (100 * (1 - (violations.length : ℚ) / ((violations.length : ℚ) + 10)))

/-- The compliance report dictionary. -/
structure Report where
  scan_timestamp : String
  total_manifests_scanned : Nat
  violations_found : Nat
  auto_fixes_applied : Nat
  compliance_score : ℚ
  violation_details : List Violation
  fix_details : List FixRecord
  remaining_violations : List Violation
deriving DecidableEq, Repr

/-- `generate_compliance_report`: scan, remediate the auto-fixable
    violations, then assemble the report. -/
def generateComplianceReport (rules : Rules) (fs : FS) (files : List ScanFile)
    (timestamp : String) : Report :=
  let violations := scanManifests rules files
  let fixes := (autoRemediate fs (violations.filter (fun v => v.auto_fixable))).2
  { scan_timestamp := timestamp,
    total_manifests_scanned := files.length,
    violations_found := violations.length,
    auto_fixes_applied := fixes.length,
    compliance_score := calculateComplianceScore violations fixes,
    violation_details := violations,
    fix_details := fixes,
    remaining_violations := violations.filter (fun v => !v.auto_fixable) }

/- ## The decision engine (decision-engine.py) -/

/-- A history record; optional fields model keys that may be absent from a
    record (`dict.get` misses). -/
structure HistRecord where
  error_type : Option String := none
  file_path : Option String := none
  issue_type : Option String := none
  success : Option Bool := none
deriving DecidableEq, Repr

/-- The persisted history: two append-only record streams. -/
structure History where
  ci_failures : List HistRecord := []
  remediation_success : List HistRecord := []
deriving DecidableEq, Repr

/-- The `patterns` dictionary built by `_extract_failure_patterns`; it only
    ever holds the three recognised keys, with count 0 meaning absent. -/
structure Patterns where
  double_extension : Nat := 0
  naming_violation : Nat := 0
  dependency_issue : Nat := 0
deriving DecidableEq, Repr

/-- `patterns.get(key, 0)`. -/
def Patterns.get (p : Patterns) (key : String) : Nat :=
  if key = "double_extension" then p.double_extension
  else if key = "naming_violation" then p.naming_violation
  else if key = "dependency_issue" then p.dependency_issue
  else 0

/-- One iteration of the `ci_failures` loop of `_extract_failure_patterns`. -/
def patternStep (p : Patterns) (f : HistRecord) : Patterns :=
  let file_path := f.file_path.getD ""
  let error_type := f.error_type.getD ""
  let p1 :=
    if containsStr file_path ".txt" && strEndsWith file_path ".txt" then
      { p with double_extension := p.double_extension + 1 }
    else p
  let p2 :=
    if containsStr (pyToLower error_type) "naming" then
      { p1 with naming_violation := p1.naming_violation + 1 }
    else p1
  if containsStr (pyToLower error_type) "dependency" then
    { p2 with dependency_issue := p2.dependency_issue + 1 }
  else p2

/-- `_extract_failure_patterns`: pattern counts extracted from the
    `ci_failures` stream alone. -/
def extractFailurePatterns (h : History) : Patterns :=
  h.ci_failures.foldl patternStep {}

/-- An issue dictionary as fed to `calculate_priority`; the four impact
    factors are the booleans read by the scorer (`dict.get` default false). -/
structure Issue where
  itype : Option String := none
  file_path : Option String := none
  blocking_ci : Bool := false
  security_risk : Bool := false
  multiple_files : Bool := false
  frequent_occurrence : Bool := false
deriving DecidableEq, Repr

/-- `calculate_priority` against an already-extracted pattern table. -/
def calculatePriority (patterns : Patterns) (issue : Issue) : Nat :=
  let base :=
    (if issue.blocking_ci then 40 else 0) +
    (if issue.security_risk then 35 else 0) +
    (if issue.multiple_files then 25 else 0) +
    (if issue.frequent_occurrence then 20 else 0)
  let historical_freq := patterns.get (issue.itype.getD "")
  let base := base + (if historical_freq > 3 then 15 else if historical_freq > 1 then 5 else 0)
  min 100 base

/-- `DecisionEngine.calculate_priority` of an engine initialised on `h`. -/
def enginePriority (h : History) (issue : Issue) : Nat :=
  calculatePriority (extractFailurePatterns h) issue

/-- A predicted blocker issue (`predict_blockers` output element). -/
structure CandidateIssue where
  ctype : String
  file_path : String
  predicted_impact : String
  confidence : ℚ
  suggested_fix : String
deriving DecidableEq, Repr

/-- The sort key `{"high": 2, "medium": 1, "low": 0}[impact]` (the predictor
    only ever produces `high` and `medium`). -/
def impactRank (i : CandidateIssue) : Nat :=
  if i.predicted_impact = "high" then 2
  else if i.predicted_impact = "medium" then 1
  else 0

/-- A regex `\w` word character (ASCII fragment, which covers the paths the
    predictor is fed). -/
def isWordChar (c : Char) : Bool := c.isAlphanum || c == '_'

/-- Scans a reversed path after `txt.` and one word character have been
    consumed: further word characters until a literal dot. -/
def revThenDot : List Char → Bool
  | [] => false
  | c :: rest => if c == '.' then true else if isWordChar c then revThenDot rest else false

/-- Python `re.search(r'\.\w+\.txt$', path)` truthiness, on the reversed
    character list of the path. -/
def revMatchDoubleExt : List Char → Bool
  | 't' :: 'x' :: 't' :: '.' :: c :: rest => isWordChar c && revThenDot rest
  | _ => false

/-- The issues `predict_blockers` accumulates for a single path, in order:
    the double-extension heuristic, then the naming heuristic. -/
def pathIssues (file_path : String) : List CandidateIssue :=
  (if revMatchDoubleExt file_path.data.reverse then
    [{ ctype := "double_extension",
       file_path := file_path,
       predicted_impact := "high",
       confidence := (95 : ℚ) / 100,
       suggested_fix := "重命名文件，移除 .txt 后缀: " ++ file_path ++ " → "
         ++ pyReplace file_path ".txt" "" }]
   else []) ++
  (if ["test", "temp", "backup"].any (fun kw => containsStr (pyToLower file_path) kw) then
    [{ ctype := "naming_convention",
       file_path := file_path,
       predicted_impact := "medium",
       confidence := (7 : ℚ) / 10,
       suggested_fix := "遵循命名规范，避免使用临时性词汇: " ++ file_path }]
   else [])

/-- Stable descending insertion for `pySortDesc`. -/
def insertDesc (rank : CandidateIssue → Nat) (x : CandidateIssue) :
    List CandidateIssue → List CandidateIssue
  | [] => [x]
  | y :: ys => if rank x < rank y then y :: insertDesc rank x ys else x :: y :: ys

/-- Python `sorted(l, key=rank, reverse=True)`: a stable descending sort. -/
def pySortDesc (rank : CandidateIssue → Nat) : List CandidateIssue → List CandidateIssue
  | [] => []
  | x :: xs => insertDesc rank x (pySortDesc rank xs)

/-- `predict_blockers`. -/
def predictBlockers (changed_files : List String) : List CandidateIssue :=
  pySortDesc impactRank ((changed_files.map pathIssues).flatten)

/-- The strategy dictionary returned by `recommend_remediation_strategy`. -/
structure Strategy where
  immediate_actions : List Issue
  batch_fixes : List Issue
  deferred_improvements : List Issue
  estimated_time : Nat
  parallelizable : Bool
deriving DecidableEq, Repr

/-- `recommend_remediation_strategy` against an extracted pattern table. -/
def recommendRemediationStrategy (patterns : Patterns) (issues : List Issue) : Strategy :=
  let high_priority := issues.filter (fun i => decide (calculatePriority patterns i ≥ 70))
  let medium_priority := issues.filter
    (fun i => decide (40 ≤ calculatePriority patterns i) && decide (calculatePriority patterns i < 70))
  let low_priority := issues.filter (fun i => decide (calculatePriority patterns i < 40))
  { immediate_actions := high_priority,
    batch_fixes := medium_priority,
    deferred_improvements := low_priority,
    estimated_time := high_priority.length * 10 + medium_priority.length * 5 + low_priority.length * 2,
    parallelizable := decide (high_priority.length > 2) }

/- ## Definitions written from the specification's words, for comparison
      with the code-derived definitions above -/

/-- The compliance-score formula exactly as the specification words it:
    100.0 for zero violations; otherwise
    `round(100*(1 - (total-autoFixable)/(total+1)) * (fixed/autoFixable), 1)`
    when `autoFixable > 0`, and `round(100*(1 - total/(total+10)), 1)`
    when `autoFixable = 0`. -/
def specComplianceScore (total autoFixable fixed : Nat) : ℚ :=
  if total = 0 then 100
  else if autoFixable > 0 then
    let fixRate : ℚ := (fixed : ℚ) / (autoFixable : ℚ)
    let remainingNonAuto : ℚ := (total : ℚ) - (autoFixable : ℚ)
    let base : ℚ := 100 * (1 - remainingNonAuto / ((total : ℚ) + 1))
    round1 (base * fixRate)
  else
    round1 (100 * (1 - (total : ℚ) / ((total : ℚ) + 10)))

/-- The scan as the claim words it: a malformed document is skipped while
    every remaining well-formed document of every file is still analysed. -/
def specScanManifests (rules : Rules) (files : List ScanFile) : List Violation :=
  (files.map (fun f =>
    ((f.docs.enum.map (fun id =>
      match id.2 with
      | .error _ => []
      | .ok none => []
      | .ok (some m) =>
        match analyzeManifest rules m f.path id.1 with
        | .error _ => []
        | .ok vs => vs)).flatten))).flatten

/-- The scorer's static base: the sum of the weighted impact factors. -/
def specBaseScore (issue : Issue) : Nat :=
  (if issue.blocking_ci then 40 else 0) +
  (if issue.security_risk then 35 else 0) +
  (if issue.multiple_files then 25 else 0) +
  (if issue.frequent_occurrence then 20 else 0)

/-- The frequency table as the claim words it: the union of the
    `ci_failures` and `remediation_success` streams, keyed by issue type. -/
def specUnionFrequency (h : History) (t : String) : Nat :=
  ((h.ci_failures ++ h.remediation_success).filter
    (fun r => r.issue_type == some t)).length

/-- The historical adjustment as the claim words it, over the unioned
    frequency table. -/
def specClaimAdjustment (h : History) (t : String) : Nat :=
  let freq := specUnionFrequency h t
  if freq > 3 then 15 else if freq > 1 then 5 else 0

/-- The priority as the claim words it: base score plus the adjustment
    looked up in the unioned frequency table, clamped to 100. -/
def specClaimPriority (h : History) (issue : Issue) : Nat :=
  min 100 (specBaseScore issue + specClaimAdjustment h (issue.itype.getD ""))

/-- The frequency table the code actually realises: only the `ci_failures`
    stream is scanned, and items are keyed by the three pattern heuristics
    rather than by issue type. -/
def amendedFrequency (h : History) (t : String) : Nat :=
  if t = "double_extension" then
    (h.ci_failures.filter (fun r =>
      containsStr (r.file_path.getD "") ".txt" && strEndsWith (r.file_path.getD "") ".txt")).length
  else if t = "naming_violation" then
    (h.ci_failures.filter (fun r =>
      containsStr (pyToLower (r.error_type.getD "")) "naming")).length
  else if t = "dependency_issue" then
    (h.ci_failures.filter (fun r =>
      containsStr (pyToLower (r.error_type.getD "")) "dependency")).length
  else 0

/-- The amended priority formula: base score plus the adjustment from the
    `ci_failures`-only pattern table, clamped to 100. -/
def amendedPriority (h : History) (issue : Issue) : Nat :=
  let freq := amendedFrequency h (issue.itype.getD "")
  min 100 (specBaseScore issue + (if freq > 3 then 15 else if freq > 1 then 5 else 0))

/-- The planner's bucketing as the specification words it: a single pass
    placing each issue by its score. -/
def specBuckets (score : Issue → Nat) : List Issue → List Issue × List Issue × List Issue
  | [] => ([], [], [])
  | i :: rest =>
    let b := specBuckets score rest
    if 70 ≤ score i then (i :: b.1, b.2.1, b.2.2)
    else if 40 ≤ score i then (b.1, i :: b.2.1, b.2.2)
    else (b.1, b.2.1, i :: b.2.2)

/-- The planner's result as the specification words it. -/
def specRecommendStrategy (patterns : Patterns) (issues : List Issue) : Strategy :=
  let b := specBuckets (calculatePriority patterns) issues
  { immediate_actions := b.1,
    batch_fixes := b.2.1,
    deferred_improvements := b.2.2,
    estimated_time := 10 * b.1.length + 5 * b.2.1.length + 2 * b.2.2.length,
    parallelizable := decide (2 < b.1.length) }

/- ## Helper lemmas -/

/-- The file just written reads back as the written content. -/
lemma fsRead_write_same (fs : FS) (p c : String) : fsRead (fsWrite fs p c) p = some c := by
  simp [fsRead, fsWrite, List.find?]

/-- A write to another path leaves a file's content unchanged. -/
lemma fsRead_write_other (fs : FS) (p q c : String) (h : q ≠ p) :
    fsRead (fsWrite fs p c) q = fsRead fs q := by
  simp only [fsRead, fsWrite, List.find?]
  have : ((p, c).1 == q) = false := by
    simp only [beq_eq_false_iff_ne]
    exact fun hpq => h hpq.symm
  simp [this]

/-- Every fix record retained by `auto_remediate` reports success. -/
lemma autoRemediate_all_success (fs : FS) (vs : List Violation) :
    ((autoRemediate fs vs).2).all (fun f => f.success) = true := by
  induction vs generalizing fs with
  | nil => rfl
  | cons v rest ih =>
    simp only [autoRemediate]
    cases hv : v.auto_fixable with
    | false => simpa using ih fs
    | true =>
      simp only [if_true]
      cases hfix : applyFix fs v with
      | error e => simpa using ih fs
      | ok p =>
        cases hs : p.2.success with
        | false => simpa [hs] using ih p.1
        | true => simp [hs, ih p.1]

/-- A filtered list satisfies the filtering predicate everywhere. -/
lemma all_filter_self {α : Type} (l : List α) (p : α → Bool) :
    (l.filter p).all p = true := by
  simp only [List.all_eq_true]
  intro a ha
  exact (List.mem_filter.mp ha).2

/-- The code's compliance-score computation coincides with the
    specification's formula on every input. -/
lemma calculateComplianceScore_eq_spec (vs : List Violation) (fixes : List FixRecord) :
    calculateComplianceScore vs fixes =
      specComplianceScore vs.length ((vs.filter (fun v => v.auto_fixable)).length)
        fixes.length := by
  cases vs with
  | nil => simp [calculateComplianceScore, specComplianceScore]
  | cons v rest => simp [calculateComplianceScore, specComplianceScore]

/- ## Claim theorems -/

/-- C1: in every report, the compliance score equals the specified formula:
    100.0 with no violations; otherwise, with total the number of violations,
    autoFixable the number of auto-fixable ones and fixed the number of
    successful fixes, `round(100*(1-(total-autoFixable)/(total+1)) *
    (fixed/autoFixable), 1)` when autoFixable > 0 and
    `round(100*(1-total/(total+10)), 1)` otherwise; every counted fix is a
    successful one. -/
theorem compliance_score_in_report (rules : Rules) (fs : FS) (files : List ScanFile)
    (ts : String) :
    (generateComplianceReport rules fs files ts).compliance_score =
      specComplianceScore (generateComplianceReport rules fs files ts).violations_found
        (((generateComplianceReport rules fs files ts).violation_details.filter
            (fun v => v.auto_fixable)).length)
        (generateComplianceReport rules fs files ts).auto_fixes_applied ∧
    ((generateComplianceReport rules fs files ts).fix_details.all (fun f => f.success)) = true := by
  refine ⟨?_, ?_⟩
  · simp only [generateComplianceReport]
    exact calculateComplianceScore_eq_spec _ _
  · simp only [generateComplianceReport]
    exact autoRemediate_all_success _ _

/-- C10: the report's `remaining_violations` are exactly the violations whose
    `auto_fixable` flag is false; every fix in `fix_details` is successful,
    so an auto-fixable violation whose fix failed or raised appears in
    neither list while still being counted in `violations_found`. -/
theorem remaining_violations_in_report (rules : Rules) (fs : FS) (files : List ScanFile)
    (ts : String) :
    (generateComplianceReport rules fs files ts).remaining_violations =
      (generateComplianceReport rules fs files ts).violation_details.filter
        (fun v => !v.auto_fixable) ∧
    ((generateComplianceReport rules fs files ts).fix_details.all (fun f => f.success)) = true ∧
    ((generateComplianceReport rules fs files ts).remaining_violations.all
        (fun v => !v.auto_fixable)) = true ∧
    (generateComplianceReport rules fs files ts).violations_found =
      (generateComplianceReport rules fs files ts).violation_details.length := by
  refine ⟨rfl, ?_, ?_, rfl⟩
  · simp only [generateComplianceReport]
    exact autoRemediate_all_success _ _
  · simp only [generateComplianceReport]
    exact all_filter_self _ _

/-- C3 counterexample: one auto-fixable violation of an unrecognised type is
    attempted, yet the remediation batch returns no fix record at all — the
    failed fix is discarded rather than retained. -/
theorem auto_remediate_drops_failed_fix :
    (autoRemediate ([] : FS) [{ vtype := "bogus", auto_fixable := true }]).2 = [] ∧
    (autoRemediate ([] : FS) [{ vtype := "bogus", auto_fixable := true }]).2.length ≠ 1 := by
  exact ⟨rfl, by decide⟩

/-- C3 amended: the batch never raises and dispatching an unrecognised type
    yields a fix record with `success = false` and a descriptive error, but
    only successful fix records are retained in the returned sequence —
    failed fixes are dropped (logged only). -/
theorem auto_remediate_amended :
    (∀ (fs : FS) (vs : List Violation),
      ((autoRemediate fs vs).2).all (fun f => f.success) = true) ∧
    (∀ (fs : FS) (v : Violation),
      v.vtype ≠ "image_compliance" → v.vtype ≠ "missing_namespace_label" →
      v.vtype ≠ "security_context" →
      applyFix fs v = .ok (fs, { success := false,
                                 error := some ("不支持的修復類型: " ++ v.vtype) })) := by
  constructor
  · exact autoRemediate_all_success
  · intro fs v h1 h2 h3
    simp only [applyFix, if_neg h1, if_neg h2, if_neg h3]

/-- C3 witness: the amended statement applied at a concrete unrecognised
    violation type on an empty file system. -/
theorem auto_remediate_amended_witness :
    ((autoRemediate ([] : FS) [{ vtype := "bogus", auto_fixable := true }]).2).all
        (fun f => f.success) = true ∧
    applyFix ([] : FS) { vtype := "bogus", auto_fixable := true } =
      .ok ([], { success := false, error := some "不支持的修復類型: bogus" }) := by
  refine ⟨auto_remediate_amended.1 ([] : FS) _, ?_⟩
  have h := auto_remediate_amended.2 ([] : FS) { vtype := "bogus", auto_fixable := true }
    (by decide) (by decide) (by decide)
  simpa using h

/-- C4 (code-bug evidence): the namespace-label and security-context fix
    strategies are stubs: they report success while the file system — and
    hence every stored document — is returned entirely unchanged, so no
    label is added, no security setting is set and nothing is re-serialized. -/
theorem namespace_and_security_fixes_are_stubs :
    applyFix [("manifests/ns.yaml", "kind: Namespace\n")]
        { vtype := "missing_namespace_label", file := "manifests/ns.yaml",
          missing_label := some "team", risk_level := some "medium",
          remediation_type := some "auto", auto_fixable := true } =
      .ok ([("manifests/ns.yaml", "kind: Namespace\n")],
           { success := true, fix_type := some "namespace_label_addition" }) ∧
    applyFix [("manifests/dep.yaml", "kind: Deployment\n")]
        { vtype := "security_context", file := "manifests/dep.yaml",
          container_index := some 0, setting := some "runAsNonRoot",
          current_value := some PyVal.pynone,
          recommended_value := some (PyVal.bool true),
          risk_level := some "high", remediation_type := some "auto",
          auto_fixable := true } =
      .ok ([("manifests/dep.yaml", "kind: Deployment\n")],
           { success := true, fix_type := some "security_context_update" }) := by
  exact ⟨rfl, rfl⟩

/-- C2: an image-compliance fix emits exactly two writes, the backup of the
    pre-fix content first and the substituted target content second; after
    both writes the backup holds the pre-fix content and the target the
    post-fix content, and if only the backup write lands (the target write
    fails) the backup is present and unmodified. -/
theorem image_fix_backup_ordering (fs : FS) (v : Violation)
    (content old_image new_image : String)
    (hread : fsRead fs v.file = some content)
    (hold : v.current_value = some (.str old_image))
    (hnew : v.recommended_value = some (.str new_image))
    (hdistinct : withSuffix v.file ".yaml.backup" ≠ v.file) :
    fixImageCompliance fs v =
      .ok ([⟨withSuffix v.file ".yaml.backup", content⟩,
            ⟨v.file, pyReplace content old_image new_image⟩],
           { success := true, file := some v.file, fix_type := some "image_replacement",
             old_value := some old_image, new_value := some new_image }) ∧
    fsRead (applyWrites fs [⟨withSuffix v.file ".yaml.backup", content⟩,
            ⟨v.file, pyReplace content old_image new_image⟩])
        (withSuffix v.file ".yaml.backup") = some content ∧
    fsRead (applyWrites fs [⟨withSuffix v.file ".yaml.backup", content⟩,
            ⟨v.file, pyReplace content old_image new_image⟩]) v.file =
      some (pyReplace content old_image new_image) ∧
    fsRead (applyWrites fs [⟨withSuffix v.file ".yaml.backup", content⟩])
        (withSuffix v.file ".yaml.backup") = some content := by
  refine ⟨?_, ?_, ?_, ?_⟩
  · simp only [fixImageCompliance, hread, hold, hnew]
  · show fsRead (fsWrite (fsWrite fs _ _) _ _) _ = _
    rw [fsRead_write_other _ _ _ _ hdistinct, fsRead_write_same]
  · show fsRead (fsWrite (fsWrite fs _ _) _ _) _ = _
    rw [fsRead_write_same]
  · show fsRead (fsWrite fs _ _) _ = _
    rw [fsRead_write_same]

/-- C2 witness: the backup-ordering theorem applied to a concrete manifest
    file holding an insecure busybox image. -/
theorem image_fix_backup_ordering_witness :
    fixImageCompliance [("manifests/deploy.yaml", "image: busybox:latest\n")]
        { vtype := "image_compliance", file := "manifests/deploy.yaml",
          current_value := some (.str "busybox:latest"),
          recommended_value := some (.str "ghcr.io/secure-baseline/busybox:1.36-secure"),
          auto_fixable := true } =
      .ok ([⟨withSuffix "manifests/deploy.yaml" ".yaml.backup", "image: busybox:latest\n"⟩,
            ⟨"manifests/deploy.yaml",
             pyReplace "image: busybox:latest\n" "busybox:latest"
               "ghcr.io/secure-baseline/busybox:1.36-secure"⟩],
           { success := true, file := some "manifests/deploy.yaml",
             fix_type := some "image_replacement",
             old_value := some "busybox:latest",
             new_value := some "ghcr.io/secure-baseline/busybox:1.36-secure" }) ∧
    fsRead (applyWrites [("manifests/deploy.yaml", "image: busybox:latest\n")]
        [⟨withSuffix "manifests/deploy.yaml" ".yaml.backup", "image: busybox:latest\n"⟩,
         ⟨"manifests/deploy.yaml",
          pyReplace "image: busybox:latest\n" "busybox:latest"
            "ghcr.io/secure-baseline/busybox:1.36-secure"⟩])
        (withSuffix "manifests/deploy.yaml" ".yaml.backup") = some "image: busybox:latest\n" ∧
    fsRead (applyWrites [("manifests/deploy.yaml", "image: busybox:latest\n")]
        [⟨withSuffix "manifests/deploy.yaml" ".yaml.backup", "image: busybox:latest\n"⟩,
         ⟨"manifests/deploy.yaml",
          pyReplace "image: busybox:latest\n" "busybox:latest"
            "ghcr.io/secure-baseline/busybox:1.36-secure"⟩]) "manifests/deploy.yaml" =
      some (pyReplace "image: busybox:latest\n" "busybox:latest"
        "ghcr.io/secure-baseline/busybox:1.36-secure") ∧
    fsRead (applyWrites [("manifests/deploy.yaml", "image: busybox:latest\n")]
        [⟨withSuffix "manifests/deploy.yaml" ".yaml.backup", "image: busybox:latest\n"⟩])
        (withSuffix "manifests/deploy.yaml" ".yaml.backup") = some "image: busybox:latest\n" :=
  image_fix_backup_ordering
    [("manifests/deploy.yaml", "image: busybox:latest\n")]
    { vtype := "image_compliance", file := "manifests/deploy.yaml",
      current_value := some (.str "busybox:latest"),
      recommended_value := some (.str "ghcr.io/secure-baseline/busybox:1.36-secure"),
      auto_fixable := true }
    "image: busybox:latest\n" "busybox:latest" "ghcr.io/secure-baseline/busybox:1.36-secure"
    (by decide) rfl rfl (by decide)

/-- The double-extension counter after one pattern-extraction step. -/
lemma patternStep_de (p : Patterns) (f : HistRecord) :
    (patternStep p f).double_extension =
      p.double_extension +
        (if containsStr (f.file_path.getD "") ".txt" &&
            strEndsWith (f.file_path.getD "") ".txt" then 1 else 0) := by
  simp only [patternStep]
  split <;> split <;> split <;> simp

/-- The naming-violation counter after one pattern-extraction step. -/
lemma patternStep_naming (p : Patterns) (f : HistRecord) :
    (patternStep p f).naming_violation =
      p.naming_violation +
        (if containsStr (pyToLower (f.error_type.getD "")) "naming" then 1 else 0) := by
  simp only [patternStep]
  split <;> split <;> split <;> simp

/-- The dependency-issue counter after one pattern-extraction step. -/
lemma patternStep_dep (p : Patterns) (f : HistRecord) :
    (patternStep p f).dependency_issue =
      p.dependency_issue +
        (if containsStr (pyToLower (f.error_type.getD "")) "dependency" then 1 else 0) := by
  simp only [patternStep]
  split <;> split <;> split <;> simp

/-- The extracted double-extension count is the number of `ci_failures`
    records matching the double-extension heuristic. -/
lemma foldl_patternStep_de (l : List HistRecord) (p : Patterns) :
    (l.foldl patternStep p).double_extension =
      p.double_extension +
        (l.filter (fun r => containsStr (r.file_path.getD "") ".txt" &&
          strEndsWith (r.file_path.getD "") ".txt")).length := by
  induction l generalizing p with
  | nil => simp
  | cons r rest ih =>
    simp only [List.foldl_cons, List.filter_cons]
    rw [ih, patternStep_de]
    by_cases h : (containsStr (r.file_path.getD "") ".txt" &&
        strEndsWith (r.file_path.getD "") ".txt") = true
    · simp [h]; omega
    · simp [h]

/-- The extracted naming-violation count is the number of `ci_failures`
    records matching the naming heuristic. -/
lemma foldl_patternStep_naming (l : List HistRecord) (p : Patterns) :
    (l.foldl patternStep p).naming_violation =
      p.naming_violation +
        (l.filter (fun r => containsStr (pyToLower (r.error_type.getD "")) "naming")).length := by
  induction l generalizing p with
  | nil => simp
  | cons r rest ih =>
    simp only [List.foldl_cons, List.filter_cons]
    rw [ih, patternStep_naming]
    by_cases h : containsStr (pyToLower (r.error_type.getD "")) "naming" = true
    · simp [h]; omega
    · simp [h]

/-- The extracted dependency-issue count is the number of `ci_failures`
    records matching the dependency heuristic. -/
lemma foldl_patternStep_dep (l : List HistRecord) (p : Patterns) :
    (l.foldl patternStep p).dependency_issue =
      p.dependency_issue +
        (l.filter (fun r => containsStr (pyToLower (r.error_type.getD "")) "dependency")).length := by
  induction l generalizing p with
  | nil => simp
  | cons r rest ih =>
    simp only [List.foldl_cons, List.filter_cons]
    rw [ih, patternStep_dep]
    by_cases h : containsStr (pyToLower (r.error_type.getD "")) "dependency" = true
    · simp [h]; omega
    · simp [h]

/-- The code's pattern table realises exactly the `ci_failures`-only,
    heuristic-keyed frequency table. -/
lemma patternsGet_eq_amendedFrequency (h : History) (t : String) :
    (extractFailurePatterns h).get t = amendedFrequency h t := by
  simp only [extractFailurePatterns, Patterns.get, amendedFrequency]
  by_cases h1 : t = "double_extension"
  · simp [h1, foldl_patternStep_de]
  · by_cases h2 : t = "naming_violation"
    · simp [h1, h2, foldl_patternStep_naming]
    · by_cases h3 : t = "dependency_issue"
      · simp [h1, h2, h3, foldl_patternStep_dep]
      · simp [h1, h2, h3]

/-- C5 counterexample: a history whose `remediation_success` stream holds
    five records of issue type `double_extension` (and no CI failures)
    yields no historical adjustment at all, while the claimed unioned
    frequency table would add 15. -/
theorem priority_union_frequency_counterexample :
    enginePriority
        { remediation_success := List.replicate 5 { issue_type := some "double_extension" } }
        { itype := some "double_extension" } ≠
      specClaimPriority
        { remediation_success := List.replicate 5 { issue_type := some "double_extension" } }
        { itype := some "double_extension" } := by
  decide

/-- C5 amended: the scorer's historical adjustment looks the violation's
    type up in a frequency table computed from the `ci_failures` stream
    alone, keyed by three heuristics (file path contains and ends with
    `.txt` → `double_extension`; error type contains `naming` →
    `naming_violation`; contains `dependency` → `dependency_issue`), adding
    15 when that frequency exceeds 3, 5 when it exceeds 1, and 0 otherwise;
    the `remediation_success` stream is never consulted. -/
theorem priority_historical_adjustment_amended (h : History) (issue : Issue) :
    enginePriority h issue = amendedPriority h issue := by
  simp only [enginePriority, calculatePriority, amendedPriority, specBaseScore]
  rw [patternsGet_eq_amendedFrequency]

/-- The specification's single-pass bucketing coincides with the three
    priority filters of the code. -/
lemma specBuckets_eq_filters (score : Issue → Nat) (l : List Issue) :
    specBuckets score l =
      (l.filter (fun i => decide (score i ≥ 70)),
       l.filter (fun i => decide (40 ≤ score i) && decide (score i < 70)),
       l.filter (fun i => decide (score i < 40))) := by
  induction l with
  | nil => rfl
  | cons i rest ih =>
    simp only [specBuckets, List.filter_cons, ih]
    by_cases h1 : 70 ≤ score i
    · have h2 : ¬ score i < 70 := not_lt.mpr h1
      have h3 : ¬ score i < 40 := by omega
      have h4 : 40 ≤ score i := by omega
      simp [h1, h2, h3, h4]
    · by_cases h2 : 40 ≤ score i
      · have h3 : score i < 70 := not_le.mp h1
        have h4 : ¬ score i < 40 := not_lt.mpr h2
        simp [h1, h2, h3, h4]
      · have h3 : score i < 40 := not_le.mp h2
        simp [h1, h2, h3]

/-- C6: the planner places every issue scoring at least 70 in the immediate
    bucket, every issue scoring at least 40 and below 70 in the batch
    bucket and every issue below 40 in the deferred bucket (so exactly 70
    is immediate, exactly 40 is batch and 39 would be deferred), with
    `estimatedTime = 10*|immediate| + 5*|batch| + 2*|deferred|` and
    `parallelizable = (|immediate| > 2)`. -/
theorem planner_bucketing (patterns : Patterns) (issues : List Issue) :
    recommendRemediationStrategy patterns issues = specRecommendStrategy patterns issues := by
  simp only [recommendRemediationStrategy, specRecommendStrategy, specBuckets_eq_filters]
  refine congrArg₂ (fun a b => Strategy.mk _ _ _ a b) ?_ rfl
  omega

/-- Stable descending insertion permutes its input. -/
lemma insertDesc_perm (rank : CandidateIssue → Nat) (x : CandidateIssue)
    (l : List CandidateIssue) : (insertDesc rank x l).Perm (x :: l) := by
  induction l with
  | nil => exact List.Perm.refl _
  | cons y ys ih =>
    simp only [insertDesc]
    split
    · exact ((ih.cons y).trans (List.Perm.swap x y ys))
    · exact List.Perm.refl _

/-- Stable descending insertion preserves descending sortedness. -/
lemma insertDesc_pairwise (rank : CandidateIssue → Nat) (x : CandidateIssue)
    (l : List CandidateIssue) (h : l.Pairwise (fun a b => rank b ≤ rank a)) :
    (insertDesc rank x l).Pairwise (fun a b => rank b ≤ rank a) := by
  induction l with
  | nil => simp [insertDesc]
  | cons y ys ih =>
    simp only [insertDesc]
    rw [List.pairwise_cons] at h
    split
    · rename_i hlt
      refine List.Pairwise.cons ?_ (ih h.2)
      intro z hz
      rcases List.mem_cons.mp ((insertDesc_perm rank x ys).mem_iff.mp hz) with hzx | hzys
      · subst hzx; exact le_of_lt hlt
      · exact h.1 z hzys
    · rename_i hnlt
      refine List.Pairwise.cons ?_ (List.Pairwise.cons h.1 h.2)
      intro z hz
      rcases List.mem_cons.mp hz with hzy | hzys
      · subst hzy; exact not_lt.mp hnlt
      · exact le_trans (h.1 z hzys) (not_lt.mp hnlt)

/-- The predictor's sort permutes the accumulated issues. -/
lemma pySortDesc_perm (rank : CandidateIssue → Nat) (l : List CandidateIssue) :
    (pySortDesc rank l).Perm l := by
  induction l with
  | nil => exact List.Perm.refl _
  | cons x xs ih => exact (insertDesc_perm rank x (pySortDesc rank xs)).trans (ih.cons x)

/-- The predictor's sort output is descending in the rank. -/
lemma pySortDesc_pairwise (rank : CandidateIssue → Nat) (l : List CandidateIssue) :
    (pySortDesc rank l).Pairwise (fun a b => rank b ≤ rank a) := by
  induction l with
  | nil => simp [pySortDesc]
  | cons x xs ih => exact insertDesc_pairwise rank x _ ih

/-- Insertion never passes an element of equal rank, so each rank class is
    preserved verbatim. -/
lemma filter_insertDesc (rank : CandidateIssue → Nat) (x : CandidateIssue)
    (l : List CandidateIssue) (k : Nat) :
    (insertDesc rank x l).filter (fun a => rank a == k) =
      if rank x == k then x :: l.filter (fun a => rank a == k)
      else l.filter (fun a => rank a == k) := by
  induction l with
  | nil => simp [insertDesc, List.filter_cons]
  | cons y ys ih =>
    simp only [insertDesc]
    split
    · rename_i hlt
      rw [List.filter_cons, ih]
      by_cases hx : rank x = k
      · have hy : ¬ rank y = k := by omega
        simp [hx, hy, List.filter_cons]
      · by_cases hy : rank y = k
        · simp [hx, hy, List.filter_cons]
        · simp [hx, hy, List.filter_cons]
    · by_cases hx : rank x = k
      · simp [hx, List.filter_cons]
      · simp [hx, List.filter_cons]

/-- Stability: the sort preserves the relative input order of every rank
    class. -/
lemma filter_pySortDesc (rank : CandidateIssue → Nat) (l : List CandidateIssue) (k : Nat) :
    (pySortDesc rank l).filter (fun a => rank a == k) = l.filter (fun a => rank a == k) := by
  induction l with
  | nil => rfl
  | cons x xs ih =>
    rw [pySortDesc, filter_insertDesc, ih]
    by_cases hx : rank x = k
    · simp [hx, List.filter_cons]
    · simp [hx, List.filter_cons]

/-- C7 counterexample: the suggested fix of the double-extension issue for
    `a.yaml.txt` is not the bare string `"a.yaml"` — it is a full renaming
    message that merely contains it. -/
theorem predict_blockers_suggested_fix_counterexample :
    (predictBlockers ["a.yaml.txt"]).map (fun i => i.suggested_fix) ≠ ["a.yaml"] := by
  decide

/-- C7 amended: `predict(["a.yaml.txt"])` yields exactly one
    `double_extension` issue with impact high, confidence 0.95 and a
    suggested-fix message containing the renaming `a.yaml.txt → a.yaml`;
    `predict(["test-deploy.yaml"])` yields one `naming_convention` issue
    with impact medium and confidence 0.70; the combined call returns the
    double-extension issue first; and for every input the output is the
    stable descending sort by impact rank of the accumulated issues. -/
theorem predict_blockers_amended :
    predictBlockers ["a.yaml.txt"] =
      [{ ctype := "double_extension", file_path := "a.yaml.txt",
         predicted_impact := "high", confidence := (95 : ℚ) / 100,
         suggested_fix := "重命名文件，移除 .txt 后缀: a.yaml.txt → a.yaml" }] ∧
    predictBlockers ["test-deploy.yaml"] =
      [{ ctype := "naming_convention", file_path := "test-deploy.yaml",
         predicted_impact := "medium", confidence := (7 : ℚ) / 10,
         suggested_fix := "遵循命名规范，避免使用临时性词汇: test-deploy.yaml" }] ∧
    predictBlockers ["a.yaml.txt", "test-deploy.yaml"] =
      [{ ctype := "double_extension", file_path := "a.yaml.txt",
         predicted_impact := "high", confidence := (95 : ℚ) / 100,
         suggested_fix := "重命名文件，移除 .txt 后缀: a.yaml.txt → a.yaml" },
       { ctype := "naming_convention", file_path := "test-deploy.yaml",
         predicted_impact := "medium", confidence := (7 : ℚ) / 10,
         suggested_fix := "遵循命名规范，避免使用临时性词汇: test-deploy.yaml" }] ∧
    ∀ paths : List String,
      (predictBlockers paths).Pairwise (fun a b => impactRank b ≤ impactRank a) ∧
      (predictBlockers paths).Perm ((paths.map pathIssues).flatten) ∧
      ∀ k : Nat, (predictBlockers paths).filter (fun i => impactRank i == k) =
        ((paths.map pathIssues).flatten).filter (fun i => impactRank i == k) := by
  refine ⟨by rfl, by rfl, by rfl, ?_⟩
  intro paths
  exact ⟨pySortDesc_pairwise impactRank _, pySortDesc_perm impactRank _,
    fun k => filter_pySortDesc impactRank _ k⟩

/-- The scan fold is the concatenation of the per-file violation lists. -/
lemma foldl_append_scan (rules : Rules) (files : List ScanFile) (acc : List Violation) :
    files.foldl (fun a f => a ++ scanFileViolations rules f) acc =
      acc ++ (files.map (scanFileViolations rules)).flatten := by
  induction files generalizing acc with
  | nil => simp
  | cons f rest ih => simp [List.foldl_cons, ih, List.append_assoc]

/-- `scan_manifests` as a per-file concatenation. -/
lemma scanManifests_flatten (rules : Rules) (files : List ScanFile) :
    scanManifests rules files = (files.map (scanFileViolations rules)).flatten := by
  simpa using foldl_append_scan rules files []

/-- C8 amended: a file whose document stream fails to materialise (any
    malformed document in it) is skipped entirely with an error logged —
    including its well-formed documents — while scanning continues with the
    remaining files and returns exactly their violations; the scan never
    aborts as a whole. -/
theorem scan_skips_malformed_file (rules : Rules) (pre post : List ScanFile)
    (path : String) (docs : List (Except Unit (Option Manifest)))
    (hbad : listAllDocs docs = .error ()) :
    scanManifests rules (pre ++ { path := path, docs := docs } :: post) =
      scanManifests rules pre ++ scanManifests rules post := by
  have hf : scanFileViolations rules { path := path, docs := docs } = [] := by
    simp [scanFileViolations, hbad]
  simp [scanManifests_flatten, List.map_append, List.flatten_append, hf]

/-- C8 witness: a well-formed namespace file scanned alongside a file whose
    second document is malformed. -/
theorem scan_skips_malformed_file_witness :
    scanManifests getFallbackRules
        [{ path := "manifests/good.yaml", docs := [.ok (some { kind := some "Namespace" })] },
         { path := "manifests/bad.yaml",
           docs := [.ok (some { kind := some "Namespace" }), .error ()] }] =
      scanManifests getFallbackRules
        [{ path := "manifests/good.yaml", docs := [.ok (some { kind := some "Namespace" })] }] ++
      scanManifests getFallbackRules ([] : List ScanFile) :=
  scan_skips_malformed_file getFallbackRules
    [{ path := "manifests/good.yaml", docs := [.ok (some { kind := some "Namespace" })] }]
    [] "manifests/bad.yaml" [.ok (some { kind := some "Namespace" }), .error ()] rfl

/-- C8 counterexample: a file holding a well-formed namespace document (which
    alone would yield three violations) followed by a malformed document
    contributes nothing — the well-formed sibling document's violations are
    lost, contradicting per-document skipping. -/
theorem scan_document_granularity_counterexample :
    scanManifests getFallbackRules
        [{ path := "manifests/ns.yaml",
           docs := [.ok (some { kind := some "Namespace" }), .error ()] }] ≠
      specScanManifests getFallbackRules
        [{ path := "manifests/ns.yaml",
           docs := [.ok (some { kind := some "Namespace" }), .error ()] }] := by
  decide

/-- Fuel does not matter to `replaceAllAux` once it covers the input length. -/
lemma replaceAllAux_irrel (old new : List Char) (hold : old ≠ []) :
    ∀ (f g : Nat) (s : List Char), s.length ≤ f → s.length ≤ g →
      replaceAllAux old new f s = replaceAllAux old new g s := by
  intro f
  induction f with
  | zero =>
    intro g s hf hg
    have hs : s = [] := List.length_eq_zero.mp (Nat.le_zero.mp hf)
    subst hs
    cases g <;> rfl
  | succ f' ih =>
    intro g s hf hg
    cases s with
    | nil => cases g <;> rfl
    | cons c rest =>
      obtain ⟨g', rfl⟩ : ∃ g', g = g' + 1 := by
        cases g with
        | zero => simp at hg
        | succ g' => exact ⟨g', rfl⟩
      have hlen : 0 < old.length := List.length_pos.mpr hold
      simp only [List.length_cons] at hf hg
      by_cases hpre : old.isPrefixOf (c :: rest) = true
      · simp only [replaceAllAux, if_pos hpre]
        refine congrArg (new ++ ·) (ih g' _ ?_ ?_) <;>
          simp only [List.length_drop, List.length_cons] <;> omega
      · simp only [replaceAllAux, if_neg hpre]
        exact congrArg (c :: ·) (ih g' rest (by omega) (by omega))

/-- Replacement walks untouched over a prefix holding no occurrence start. -/
lemma replaceAll_skip (old new : List Char) (hold : old ≠ []) :
    ∀ (a rest : List Char), matchInPrefix old a rest = false →
      replaceAllAux old new (a ++ rest).length (a ++ rest) =
        a ++ replaceAllAux old new rest.length rest := by
  intro a
  induction a with
  | nil => intro rest h; simp
  | cons c a' iha =>
    intro rest h
    simp only [matchInPrefix, Bool.or_eq_false_iff] at h
    simp only [List.cons_append, List.length_cons]
    rw [replaceAllAux.eq_3, if_neg (by simp [h.1])]
    exact congrArg (c :: ·) (iha rest h.2)

/-- A list is a `isPrefixOf` of itself followed by anything. -/
lemma isPrefixOf_append_self (l r : List Char) : l.isPrefixOf (l ++ r) = true := by
  induction l with
  | nil => simp [List.isPrefixOf]
  | cons c t ih => simp [List.isPrefixOf, ih]

/-- Replacement substitutes an occurrence sitting at the head. -/
lemma replaceAll_head (old new : List Char) (hold : old ≠ []) (rest : List Char) :
    replaceAllAux old new (old ++ rest).length (old ++ rest) =
      new ++ replaceAllAux old new rest.length rest := by
  obtain ⟨o, old', rfl⟩ : ∃ o old', old = o :: old' := by
    cases old with
    | nil => exact absurd rfl hold
    | cons o t => exact ⟨o, t, rfl⟩
  simp only [List.cons_append, List.length_cons]
  rw [replaceAllAux.eq_3, if_pos (by simp [isPrefixOf_append_self (o :: old') rest])]
  refine congrArg (new ++ ·) ?_
  have hdrop : (o :: (old' ++ rest)).drop (o :: old').length = rest := by
    simp [List.drop_left old' rest]
  rw [hdrop]
  exact replaceAllAux_irrel (o :: old') new (by simp) _ _ rest
    (by rw [List.length_append]; omega) le_rfl

/-- Replacement is the identity on content with no occurrence at all. -/
lemma replaceAll_nomatch (old new : List Char) :
    ∀ (s : List Char), containsSub old s = false →
      replaceAllAux old new s.length s = s := by
  intro s
  induction s with
  | nil => intro h; rfl
  | cons c rest ih =>
    intro h
    simp only [containsSub, Bool.or_eq_false_iff] at h
    simp only [List.length_cons]
    rw [replaceAllAux.eq_3, if_neg (by simp [h.1])]
    exact congrArg (c :: ·) (ih h.2)

/-- Python `replace` rewrites both of two disjoint occurrences, wherever
    they sit in the content. -/
lemma pyReplace_two_occurrences (a b d old new : List Char) (hne : old ≠ [])
    (ha : matchInPrefix old a (old ++ (b ++ (old ++ d))) = false)
    (hb : matchInPrefix old b (old ++ d) = false)
    (hd : containsSub old d = false) :
    pyReplace ⟨a ++ (old ++ (b ++ (old ++ d)))⟩ ⟨old⟩ ⟨new⟩ =
      ⟨a ++ (new ++ (b ++ (new ++ d)))⟩ := by
  have hemp : old.isEmpty = false := by
    cases old with
    | nil => exact absurd rfl hne
    | cons c t => rfl
  simp only [pyReplace]
  rw [if_neg (by simp [hemp])]
  refine congrArg String.mk ?_
  show replaceAllAux old new (a ++ (old ++ (b ++ (old ++ d)))).length
      (a ++ (old ++ (b ++ (old ++ d)))) = a ++ (new ++ (b ++ (new ++ d)))
  rw [replaceAll_skip old new hne a _ ha, replaceAll_head old new hne _,
      replaceAll_skip old new hne b _ hb, replaceAll_head old new hne _,
      replaceAll_nomatch old new d hd]

/-- C9: the image fix's textual substitution is performed on the target
    file's entire content: given content holding two disjoint occurrences of
    the old image reference — for instance one in the violating document and
    one in another document of the same multi-document file — the rewritten
    target content has both occurrences replaced, not only the violating
    container's one. -/
theorem image_fix_replaces_every_occurrence (fs : FS) (v : Violation)
    (a b d old new : List Char)
    (hold : v.current_value = some (.str ⟨old⟩))
    (hnew : v.recommended_value = some (.str ⟨new⟩))
    (hread : fsRead fs v.file = some ⟨a ++ (old ++ (b ++ (old ++ d)))⟩)
    (hne : old ≠ [])
    (ha : matchInPrefix old a (old ++ (b ++ (old ++ d))) = false)
    (hb : matchInPrefix old b (old ++ d) = false)
    (hd : containsSub old d = false) :
    fixImageCompliance fs v =
      .ok ([⟨withSuffix v.file ".yaml.backup", ⟨a ++ (old ++ (b ++ (old ++ d)))⟩⟩,
            ⟨v.file, ⟨a ++ (new ++ (b ++ (new ++ d)))⟩⟩],
           { success := true, file := some v.file,
             fix_type := some "image_replacement",
             old_value := some ⟨old⟩, new_value := some ⟨new⟩ }) := by
  simp only [fixImageCompliance, hread, hold, hnew]
  rw [pyReplace_two_occurrences a b d old new hne ha hb hd]

/-- C9 witness: a two-document manifest file whose second document contains
    the same insecure image reference as the violating first document; both
    occurrences end up replaced. -/
theorem image_fix_replaces_every_occurrence_witness :
    fixImageCompliance
        [("manifests/multi.yaml",
          ⟨"image: ".data ++ ("busybox:latest".data ++ ("\n---\nimage: ".data ++
            ("busybox:latest".data ++ "\n".data)))⟩)]
        { vtype := "image_compliance", file := "manifests/multi.yaml",
          current_value := some (.str ⟨"busybox:latest".data⟩),
          recommended_value := some (.str ⟨"secure:1".data⟩),
          auto_fixable := true } =
      .ok ([⟨withSuffix "manifests/multi.yaml" ".yaml.backup",
             ⟨"image: ".data ++ ("busybox:latest".data ++ ("\n---\nimage: ".data ++
               ("busybox:latest".data ++ "\n".data)))⟩⟩,
            ⟨"manifests/multi.yaml",
             ⟨"image: ".data ++ ("secure:1".data ++ ("\n---\nimage: ".data ++
               ("secure:1".data ++ "\n".data)))⟩⟩],
           { success := true, file := some "manifests/multi.yaml",
             fix_type := some "image_replacement",
             old_value := some ⟨"busybox:latest".data⟩,
             new_value := some ⟨"secure:1".data⟩ }) :=
  image_fix_replaces_every_occurrence
    [("manifests/multi.yaml",
      ⟨"image: ".data ++ ("busybox:latest".data ++ ("\n---\nimage: ".data ++
        ("busybox:latest".data ++ "\n".data)))⟩)]
    { vtype := "image_compliance", file := "manifests/multi.yaml",
      current_value := some (.str ⟨"busybox:latest".data⟩),
      recommended_value := some (.str ⟨"secure:1".data⟩),
      auto_fixable := true }
    "image: ".data "\n---\nimage: ".data "\n".data "busybox:latest".data "secure:1".data
    rfl rfl (by decide) (by decide) (by decide) (by decide) (by decide)
